import Mathlib

/-!
Verification development for the restaurant-directory scraping scripts
(`1-1.py`, static HTML front-end, and `1-2.py`, browser-driven front-end).

The extraction core is embedded shallowly:

* The Python `re` engine is modelled (for the fixed address pattern used by
  `get_address`) by a small matcher `mmatch` that returns the list of all
  possible remainders of the input after matching, in exactly the engine's
  backtracking priority order (leftmost alternative first, lazy quantifiers
  shortest-first, greedy quantifiers longest-first).  The overall match of
  `re.match` is the head of the composed list.
* The parsed HTML document / rendered DOM is modelled at the level of the
  query capability the code uses: each `find` / `find_element` result is an
  `Option` field of a structure, and `get_text(strip=True)` results are the
  stored strings.
* Network collaborators (`requests.get`, the raw TCP+TLS handshake) are
  modelled as explicit environment functions passed to the embedded code.
* Python exceptions are modelled with `Except`; a caught exception is
  translated to the control flow of its handler.
-/

namespace Gnavi

/-- Regular-expression syntax actually used by the address pattern.
Quantified sub-patterns in the source are all over single-character
classes, so the quantifier constructors are specialised to character
predicates (this keeps the matcher structurally recursive). -/
inductive RE where
  | eps : RE
  | pred (p : Char → Bool) : RE
  | lit (cs : List Char) : RE
  | seq (a b : RE) : RE
  | alt (a b : RE) : RE
  | lazyStarP (p : Char → Bool) : RE
  | starP (p : Char → Bool) : RE

/-- Remainders after a lazy star `p*?` over a character class: zero
repetitions first, then progressively longer ones. -/
def lazyStarRun (p : Char → Bool) : List Char → List (List Char)
  | [] => [[]]
  | c :: r => (c :: r) :: (if p c then lazyStarRun p r else [])

/-- Remainders after a greedy star `p*` over a character class: longest
consumption first, down to zero repetitions. -/
def starRun (p : Char → Bool) : List Char → List (List Char)
  | [] => [[]]
  | c :: r => (if p c then starRun p r else []) ++ [c :: r]

/-- All remainders of `s` after matching `re` against a prefix of `s`,
in backtracking priority order (the order Python's `re` engine explores
alternatives: first element = the remainder the engine commits to first). -/
def mmatch : RE → List Char → List (List Char)
  | .eps, s => [s]
  | .pred _, [] => []
  | .pred p, c :: r => if p c then [r] else []
  | .lit cs, s => if cs.isPrefixOf s then [s.drop cs.length] else []
  | .seq a b, s => (mmatch a s).flatMap fun r => mmatch b r
  | .alt a b, s => mmatch a s ++ mmatch b s
  | .lazyStarP p, s => lazyStarRun p s
  | .starP p, s => starRun p s

/-- A regex that never matches (used as the base of a literal alternation). -/
def reFail : RE := .pred fun _ => false

/-- Ordered alternation of literal strings, e.g. `(?:旭川|伊達|...)`. -/
def litsRE (L : List (List Char)) : RE := L.foldr (fun m acc => .alt (.lit m) acc) reFail

/-- Python `.` without `DOTALL`: any character except a newline. -/
def dotP (c : Char) : Bool := c != '\n'

/-- Python `\d` on the character ranges relevant to this domain: ASCII
decimal digits and their full-width forms. -/
def isPyDigit (c : Char) : Bool := c.isDigit || ('０' ≤ c && c ≤ '９')

/-- The character class `[都道府県]`. -/
def prefSfx (c : Char) : Bool := c == '都' || c == '道' || c == '府' || c == '県'

/-- The character class `[市区町村]`. -/
def citySfx (c : Char) : Bool := c == '市' || c == '区' || c == '町' || c == '村'

/-- The character class `[町村]`. -/
def townSfx (c : Char) : Bool := c == '町' || c == '村'

/-- The lazy plus `.+?`: one mandatory `.` then a lazy star of `.`. -/
def lazyPlusDot : RE := .seq (.pred dotP) (.lazyStarP dotP)

/-- The ~24 allow-listed city names of the first city alternative, in
source order. -/
def namedCities : List (List Char) :=
  [['旭', '川'], ['伊', '達'], ['石', '狩'], ['盛', '岡'], ['奥', '州'],
   ['田', '村'], ['南', '相', '馬'], ['那', '須', '塩', '原'], ['東', '村', '山'],
   ['武', '蔵', '村', '山'], ['羽', '村'], ['十', '日', '町'], ['上', '越'],
   ['富', '山'], ['野', '々', '市'], ['大', '町'], ['蒲', '郡'], ['四', '日', '市'],
   ['姫', '路'], ['大', '和', '郡', '山'], ['廿', '日', '市'], ['下', '松'],
   ['岩', '国'], ['田', '川'], ['大', '村']]

/-- `prefecture_pattern = r'(...??[都道府県])'`: two mandatory wildcards, a
lazily optional third wildcard, then a prefecture-type suffix character. -/
def prefecture_pattern : RE :=
  .seq (.pred dotP) (.seq (.pred dotP) (.seq (.alt .eps (.pred dotP)) (.pred prefSfx)))

/-- First city alternative: `(?:旭川|…|大村)市.+?`. -/
def cityNamed : RE := .seq (litsRE namedCities) (.seq (.lit ['市']) lazyPlusDot)

/-- Second city alternative: `.+?郡(?:玉村|大町|.+?)[町村].+?`. -/
def cityGun : RE :=
  .seq lazyPlusDot
    (.seq (.lit ['郡'])
      (.seq (.alt (.lit ['玉', '村']) (.alt (.lit ['大', '町']) lazyPlusDot))
        (.seq (.pred townSfx) lazyPlusDot)))

/-- Third city alternative: `.+?市.+?区`. -/
def cityShiKu : RE := .seq lazyPlusDot (.seq (.lit ['市']) (.seq lazyPlusDot (.lit ['区'])))

/-- Fourth (generic fallback) city alternative: `.+?[市区町村].+?`. -/
def cityGeneric : RE := .seq lazyPlusDot (.seq (.pred citySfx) lazyPlusDot)

/-- `city_pattern`: the four alternatives in source priority order. -/
def city_pattern : RE := .alt cityNamed (.alt cityGun (.alt cityShiKu cityGeneric))

/-- `street_pattern = r'(\d.*)'`. -/
def street_pattern : RE := .seq (.pred isPyDigit) (.starP dotP)

/-- Given the whole input `s` and the remainders `r1` (after the
prefecture group) and `r2` (after the city group), the capture-group
triples for each way the street pattern can match `r2`, in backtracking
priority order. -/
def streetGroups (s r1 r2 : List Char) : List (List Char × List Char × List Char) :=
  (mmatch street_pattern r2).map fun r3 =>
    (s.take (s.length - r1.length), r1.take (r1.length - r2.length),
     r2.take (r2.length - r3.length))

/-- Capture-group triples over the ways the city and street patterns can
match `r1` (the remainder after the prefecture group), in backtracking
priority order. -/
def cityGroups (s r1 : List Char) : List (List Char × List Char × List Char) :=
  (mmatch city_pattern r1).flatMap fun r2 => streetGroups s r1 r2

/-- All results of `re.compile(address_pattern).match(region)` in
backtracking priority order, each as the triple of the three capture
groups (prefecture, city, street). -/
def address_matches (s : List Char) : List (List Char × List Char × List Char) :=
  (mmatch prefecture_pattern s).flatMap fun r1 => cityGroups s r1

/-- The match the engine commits to: the first result in backtracking
priority order, or `none` when the pattern does not match at the start of
the string (`re.match` is a prefix match anchored at position 0). -/
def address_match (s : List Char) : Option (List Char × List Char × List Char) :=
  (address_matches s).head?

/-- The `p.adr.slink` container: its `span.region` and `span.locality`
children, each `none` when absent, otherwise the `get_text(strip=True)`
result. -/
structure AdrSlink where
  region : Option String
  locality : Option String
deriving DecidableEq

/-- `get_address` (`1-1.py` lines 84–125): split the raw region text into
prefecture / city / street with the address regex, and read the building
name from the separate `locality` node.  Returns the quadruple
(都道府県, 市区町村, 番地, 建物名), each empty when unavailable. -/
def get_address (adrSlink : Option AdrSlink) : String × String × String × String :=
  match adrSlink with
  | none => ("", "", "", "")
  | some a =>
    let region : String := a.region.getD ""
    match address_match region.data with
    | some (g1, g2, g3) => (g1.asString, g2.asString, g3.asString, a.locality.getD "")
    | none => ("", "", "", a.locality.getD "")

/-- Python exceptions distinguished by the embedded code (raised, or caught
by name in an `except` clause). -/
inductive PyError where
  | valueError (msg : String)
  | attributeError (msg : String)
  | typeError (msg : String)
  | jsonDecodeError (msg : String)
  | keyError (key : String)
  | noSuchElement
  | timeoutException
deriving DecidableEq

/-- The raw string held by the `data-o` attribute, modelled by its JSON
parse outcome: the empty string (falsy), a non-JSON string, or a JSON
object with string values. -/
inductive RawJson where
  | empty
  | invalid
  | obj (kv : List (String × String))
deriving DecidableEq

/-- `json.loads` on a `data-o` attribute value: an exception for anything
but a JSON object, the key/value list otherwise. -/
def json_loads : RawJson → Except PyError (List (String × String))
  | .empty => .error (.jsonDecodeError "Expecting value")
  | .invalid => .error (.jsonDecodeError "Expecting value")
  | .obj kv => .ok kv

/-- Python truthiness of a string attribute value (`if data_o:`). -/
def truthyRaw : RawJson → Bool
  | .empty => false
  | _ => true

/-- Python truthiness of a `str`-or-`None` value (`if url:` / `if not url:`):
`None` and the empty string are falsy. -/
def truthyOpt : Option String → Bool
  | none => false
  | some s => !s.isEmpty

/-- The `tr#info-phone` row: the text of its `span.number` child
(`get_text(strip=True)` result), `none` when that child is absent. -/
structure PhoneElem where
  numberSpan : Option String
deriving DecidableEq

/-- The `a.url.go-off` link: its `data-o` attribute (`none` when the
attribute is absent, i.e. `get` returned `None`). -/
structure LinkElem where
  dataO : Option RawJson
deriving DecidableEq

/-- The `table.basic-table` detail table, at the level of the queries the
extractor performs on it.  Each field is the result of the corresponding
`find`: `none` when the element is absent. -/
structure InfoTable where
  infoName : Option String      -- text of `p#info-name`
  infoPhone : Option PhoneElem  -- `tr#info-phone`
  mailtoHref : Option String    -- `href` of the first element whose href matches `mailto:.*`
  adrSlink : Option AdrSlink    -- `p.adr.slink`
  urlGoOff : Option LinkElem    -- `a.url.go-off`
deriving DecidableEq

/-- The `ul#sv-site` container: the `a.sv-of.double` link inside it, and
that link's `href` attribute (itself possibly `None`). -/
structure SvSite where
  svOfDouble : Option (Option String)
deriving DecidableEq

/-- The parsed detail page: the detail table and the `ul#sv-site`
container, each `none` when absent. -/
structure Soup where
  basicTable : Option InfoTable
  svSite : Option SvSite
deriving DecidableEq

/-- `get_rs_data_member` (`1-1.py` lines 42–82): dispatch on the
`data_type` string.  `name`/`email` recover absence as the empty string;
`phone` calls `.get_text` on the result of the inner `find`, which raises
`AttributeError` when that inner `find` returned `None`; any `data_type`
outside the three known ones raises `ValueError`. -/
def get_rs_data_member (info_table : InfoTable) (data_type : String) :
    Except PyError String :=
  if data_type = "name" then
    match info_table.infoName with
    | some txt => .ok txt
    | none => .ok ""
  else if data_type = "phone" then
    match info_table.infoPhone with
    | some pe =>
      match pe.numberSpan with
      | some txt => .ok txt
      | none => .error (.attributeError "NoneType object has no attribute get_text")
    | none => .ok ""
  else if data_type = "email" then
    match info_table.mailtoHref with
    | some href => .ok (href.replace "mailto:" "")
    | none => .ok ""
  else
    .error (.valueError ("Invalid data_type: " ++ data_type))

/-- The redirect-following HTTP GET collaborator (`requests.get` with
`allow_redirects=True`): maps a URL to the final URL after redirects, or
to a request-level error. -/
def HttpEnv := String → Except Unit String

/-- `get_url` (`1-1.py` lines 127–175).  Primary path: the `data-o`
attribute of `a.url.go-off`; a `json.JSONDecodeError` or `KeyError` there
is caught by an `except` clause that returns `None` immediately.
Fallback (only when the primary produced nothing truthy): the `href` of
`a.sv-of.double` inside `ul#sv-site`.  Finally the candidate is resolved
through redirects; on a request failure the candidate itself is returned. -/
def get_url_1_1 (info_table : InfoTable) (soup : Soup) (env : HttpEnv) :
    Option String :=
  let step1 : Except Unit (Option String) :=
    match info_table.urlGoOff with
    | none => .ok none
    | some le =>
      match le.dataO with
      | none => .ok none
      | some r =>
        if truthyRaw r then
          match json_loads r with
          | .error _ => .error ()        -- caught: `return None`
          | .ok data =>
            match data.lookup "b" with
            | none => .error ()          -- KeyError caught: `return None`
            | some b =>
              match data.lookup "a" with
              | none => .error ()        -- KeyError caught: `return None`
              | some a => .ok (some (b ++ "://" ++ a))
        else .ok none
  match step1 with
  | .error _ => none
  | .ok url =>
    let url2 : Option String :=
      if truthyOpt url then url
      else
        match soup.svSite with
        | none => url
        | some sv =>
          match sv.svOfDouble with
          | none => url
          | some href => href
    match url2 with
    | none => none
    | some u =>
      if u.isEmpty then none
      else
        match env u with
        | .ok final => some final
        | .error _ => some u

/-- `get_url` (`1-2.py` lines 171–216).  The primary path is wrapped in a
`try` whose `except Exception: pass` falls through to the fallback, and a
non-truthy or key-missing `data-o` also falls through; the fallback reads
the `href` of `a.sv-of.double` inside `ul#sv-site`; otherwise `None`.
No redirect-following step exists in this variant. -/
def get_url_1_2 (info_table : InfoTable) (driver : Soup) : Option String :=
  let primary : Option String :=
    match info_table.urlGoOff with
    | none => none                       -- NoSuchElementException caught
    | some le =>
      match le.dataO with
      | none => none                     -- attribute absent: `if data_o:` fails
      | some r =>
        if truthyRaw r then
          match json_loads r with
          | .error _ => none             -- exception caught: fall through
          | .ok data =>
            match data.lookup "b", data.lookup "a" with
            | some b, some a => some (b ++ "://" ++ a)
            | _, _ => none               -- KeyError caught: fall through
        else none
  match primary with
  | some u => some u
  | none =>
    match driver.svSite with
    | none => none
    | some sv =>
      match sv.svOfDouble with
      | none => none
      | some href => href

/-- A `data-o` attribute value on which the primary URL strategy fails:
the JSON does not parse, or the parsed object lacks the scheme key `"b"`
or the host key `"a"`. -/
def dataOFails (r : RawJson) : Bool :=
  match json_loads r with
  | .error _ => true
  | .ok kv => (kv.lookup "b").isNone || (kv.lookup "a").isNone

/-- Outcome of the raw TCP connect + TLS handshake collaborator against a
hostname on port 443. -/
inductive NetOutcome where
  | sslError (e : String)
  | connTimeout
  | otherError (e : String)
  | handshakeOk (certNonEmpty : Bool)
deriving DecidableEq

/-- The TCP+TLS collaborator: maps a hostname to its handshake outcome. -/
def TlsEnv := String → NetOutcome

/-- Model of `urlparse(url).netloc`: the authority component, present only
when the input (after an optional `scheme:`) starts with `//`; empty
otherwise. -/
def netloc (url : String) : String :=
  let s := url.data
  let pre := s.takeWhile fun c => c ≠ ':'
  let isScheme :=
    pre.length < s.length && !pre.isEmpty &&
      (match pre with
       | c :: cs => c.isAlpha && cs.all fun d => d.isAlphanum || d == '+' || d == '-' || d == '.'
       | [] => false)
  let rest := if isScheme then s.drop (pre.length + 1) else s
  match rest with
  | '/' :: '/' :: r =>
    (r.takeWhile fun c => !(c == '/' || c == '?' || c == '#')).asString
  | _ => ""

/-- `check_ssl_certificate` (`1-1.py` lines 191–227, identical in
`1-2.py`): an unparseable authority yields `(False, "Invalid URL")`
locally; otherwise each exception path and the non-empty-certificate
success path return a pair, but a successful handshake that retrieves an
empty certificate falls off the end of the function, i.e. returns `None`
(`Option.none` here). -/
def check_ssl_certificate (url : String) (env : TlsEnv) :
    Option (Bool × String) :=
  let hostname := netloc url
  if hostname.isEmpty then some (false, "Invalid URL")
  else
    match env hostname with
    | .handshakeOk true => some (true, "SSL Available")
    | .handshakeOk false => none
    | .sslError e => some (false, "SSL Error: " ++ e)
    | .connTimeout => some (false, "Conn Timeout")
    | .otherError e => some (false, "SSL Not Available (" ++ e ++ ")")

/-- `check_ssl_status` (`1-1.py` lines 177–189): probes only when the URL
is truthy and returns the boolean; when the URL is falsy the function
body ends without a `return`, producing Python `None` (modelled as
`Option.none`).  Unpacking the certificate-empty `None` result of
`check_ssl_certificate` would raise `TypeError`. -/
def check_ssl_status_1_1 (url : Option String) (env : TlsEnv) :
    Except PyError (Option Bool) :=
  match url with
  | none => .ok none
  | some u =>
    if u.isEmpty then .ok none
    else
      match check_ssl_certificate u env with
      | some (b, _m) => .ok (some b)
      | none => .error (.typeError "cannot unpack non-iterable NoneType object")

/-- `check_ssl_status` (`1-2.py` lines 218–238): same as the static
variant but with an explicit `else: has_ssl = False`, so a falsy URL
yields the boolean `False`. -/
def check_ssl_status_1_2 (url : Option String) (env : TlsEnv) :
    Except PyError Bool :=
  match url with
  | none => .ok false
  | some u =>
    if u.isEmpty then .ok false
    else
      match check_ssl_certificate u env with
      | some (b, _m) => .ok b
      | none => .error (.typeError "cannot unpack non-iterable NoneType object")

/-- The output record (`data_dict`), with the Python `None`-able values
modelled as options: `url` is `some s` for a string (the default is the
empty string) and `none` for Python `None`; `ssl` likewise. -/
structure Record where
  name : String
  phone : String
  email : String
  prefecture : String
  city : String
  street : String
  building : String
  url : Option String
  ssl : Option Bool
deriving DecidableEq

/-- The fully-defaulted `data_dict` of `get_rs_data`. -/
def defaultRecord : Record :=
  { name := "", phone := "", email := "", prefecture := "", city := "",
    street := "", building := "", url := some "", ssl := some false }

/-- `get_rs_data` (`1-1.py` lines 229–286): on a fetch failure (the only
exception caught) or a non-200 status or a missing `table.basic-table`,
the fully-defaulted record is returned; otherwise the fields are extracted
in order, and any exception raised by an extractor propagates. -/
def get_rs_data (fetch : Except Unit (Nat × Soup)) (httpEnv : HttpEnv)
    (tlsEnv : TlsEnv) : Except PyError Record :=
  match fetch with
  | .error _ => .ok defaultRecord
  | .ok (status, soup) =>
    if status ≠ 200 then .ok defaultRecord
    else
      match soup.basicTable with
      | none => .ok defaultRecord
      | some info_table => do
        let name ← get_rs_data_member info_table "name"
        let phone ← get_rs_data_member info_table "phone"
        let email ← get_rs_data_member info_table "email"
        let (prefecture, city, street, building) := get_address info_table.adrSlink
        let url := get_url_1_1 info_table soup httpEnv
        let ssl ← check_ssl_status_1_1 url tlsEnv
        .ok { name := name, phone := phone, email := email,
              prefecture := prefecture, city := city, street := street,
              building := building, url := url, ssl := ssl }

/-- `get_rs_data_member` (`1-2.py` lines 56–110): the Selenium variant.
`find_element` raises `NoSuchElementException` when the element is absent
(it never returns a falsy value, so the `if name_elem:` /
`if phone_number:` checks are always true when reached); only the email
branch guards itself with a `try`, returning the empty string.  As for
the static variant, an unknown `data_type` raises `ValueError`. -/
def get_rs_data_member_1_2 (info_table : InfoTable) (data_type : String) :
    Except PyError String :=
  if data_type = "name" then
    match info_table.infoName with
    | some txt => .ok txt
    | none => .error .noSuchElement
  else if data_type = "phone" then
    match info_table.infoPhone with
    | some pe =>
      match pe.numberSpan with
      | some txt => .ok txt
      | none => .error .noSuchElement
    | none => .error .noSuchElement
  else if data_type = "email" then
    match info_table.mailtoHref with
    | some href =>
      if href.startsWith "mailto:" then .ok (href.replace "mailto:" "") else .ok ""
    | none => .ok ""
  else
    .error (.valueError ("Invalid data_type: " ++ data_type))

/-- `get_address` (`1-2.py` lines 112–169): the Selenium variant finds
`adr.slink` and its `region` child with `find_element` and NO surrounding
`try`, so their absence raises `NoSuchElementException` out of the
function; only the `locality` lookup is wrapped in a `try` that recovers
as the empty string. -/
def get_address_1_2 (adrSlink : Option AdrSlink) :
    Except PyError (String × String × String × String) :=
  match adrSlink with
  | none => .error .noSuchElement
  | some a =>
    match a.region with
    | none => .error .noSuchElement
    | some region =>
      match address_match region.data with
      | some (g1, g2, g3) =>
        .ok (g1.asString, g2.asString, g3.asString, a.locality.getD "")
      | none => .ok ("", "", "", a.locality.getD "")

/-- `get_rs_data` (`1-2.py` lines 283–346): the Selenium variant.  After
`driver.get`, `WebDriverWait(driver, 10).until(presence_of_element_located
(By.CLASS_NAME, 'basic-table'))` raises `TimeoutException` when the table
never appears, and `find_element` would raise `NoSuchElementException`
rather than return a falsy value — so the `if not info_table: return
data_dict` branch is unreachable and a page without the root table raises
instead of returning the defaulted record.  No exception is caught
anywhere in this function. -/
def get_rs_data_1_2 (page : Soup) (tlsEnv : TlsEnv) : Except PyError Record :=
  match page.basicTable with
  | none => .error .timeoutException
  | some info_table => do
    let name ← get_rs_data_member_1_2 info_table "name"
    let phone ← get_rs_data_member_1_2 info_table "phone"
    let email ← get_rs_data_member_1_2 info_table "email"
    let (prefecture, city, street, building) ← get_address_1_2 info_table.adrSlink
    let url := get_url_1_2 info_table page
    let ssl ← check_ssl_status_1_2 url tlsEnv
    .ok { name := name, phone := phone, email := email,
          prefecture := prefecture, city := city, street := street,
          building := building, url := url, ssl := some ssl }

/-! ### General lemmas about the matcher -/

/-- Unfolding `litsRE` at a cons cell. -/
theorem litsRE_cons (m : List Char) (L : List (List Char)) :
    litsRE (m :: L) = .alt (.lit m) (litsRE L) := rfl

/-- Unfolding the matcher at a sequence. -/
theorem mmatch_seq (a b : RE) (s : List Char) :
    mmatch (.seq a b) s = (mmatch a s).flatMap fun r => mmatch b r := rfl

/-- Unfolding the matcher at an alternation. -/
theorem mmatch_alt (a b : RE) (s : List Char) :
    mmatch (.alt a b) s = mmatch a s ++ mmatch b s := rfl

/-- Unfolding the matcher at a lazy star. -/
theorem mmatch_lazyStar (p : Char → Bool) (s : List Char) :
    mmatch (.lazyStarP p) s = lazyStarRun p s := rfl

/-- `flatMap` over a singleton. -/
theorem flatMap_one {α β : Type} (a : α) (f : α → List β) :
    [a].flatMap f = f a := by simp

/-- An ordered literal alternation matches exactly the literals that are
prefixes of the input, in list order. -/
theorem mmatch_litsRE (L : List (List Char)) (s : List Char) :
    mmatch (litsRE L) s =
      (L.filter fun m => m.isPrefixOf s).map fun m => s.drop m.length := by
  induction L with
  | nil => cases s <;> simp [litsRE, reFail, mmatch]
  | cons m L ih =>
    rw [litsRE_cons]
    by_cases hm : m.isPrefixOf s <;>
      simp [mmatch, ih, List.filter_cons, hm]

/-- Every remainder produced by `lazyStarRun` is a suffix of the input. -/
theorem mem_lazyStarRun_suffix (p : Char → Bool) :
    ∀ s r, r ∈ lazyStarRun p s → r.IsSuffix s := by
  intro s
  induction s with
  | nil => intro r h; simp [lazyStarRun] at h; simp [h]
  | cons c cs ih =>
    intro r h
    simp only [lazyStarRun] at h
    rcases List.mem_cons.mp h with h | h
    · simp [h]
    · by_cases hp : p c
      · simp only [hp, if_true] at h
        exact (ih r h).trans (List.suffix_cons c cs)
      · simp [hp] at h

/-- Every remainder produced by `starRun` is a suffix of the input. -/
theorem mem_starRun_suffix (p : Char → Bool) :
    ∀ s r, r ∈ starRun p s → r.IsSuffix s := by
  intro s
  induction s with
  | nil => intro r h; simp [starRun] at h; simp [h]
  | cons c cs ih =>
    intro r h
    simp only [starRun] at h
    rcases List.mem_append.mp h with h | h
    · by_cases hp : p c
      · simp only [hp, if_true] at h
        exact (ih r h).trans (List.suffix_cons c cs)
      · simp [hp] at h
    · simp at h; simp [h]

/-- Every remainder produced by the matcher is a suffix of the input:
the matcher only consumes a prefix. -/
theorem mem_mmatch_suffix (re : RE) :
    ∀ s r, r ∈ mmatch re s → r.IsSuffix s := by
  induction re with
  | eps =>
    intro s r h; simp [mmatch] at h; simp [h]
  | pred p =>
    intro s r h
    cases s with
    | nil => simp [mmatch] at h
    | cons c cs =>
      by_cases hp : p c
      · simp [mmatch, hp] at h
        exact h ▸ (List.suffix_cons c cs)
      · simp [mmatch, hp] at h
  | lit cs =>
    intro s r h
    by_cases hcs : cs.isPrefixOf s
    · simp [mmatch, hcs] at h
      exact h ▸ List.drop_suffix cs.length s
    · simp [mmatch, hcs] at h
  | seq a b iha ihb =>
    intro s r h
    simp only [mmatch, List.mem_flatMap] at h
    obtain ⟨r1, hr1, hr⟩ := h
    exact (ihb r1 r hr).trans (iha s r1 hr1)
  | alt a b iha ihb =>
    intro s r h
    simp only [mmatch, List.mem_append] at h
    rcases h with h | h
    · exact iha s r h
    · exact ihb s r h
  | lazyStarP p => exact mem_lazyStarRun_suffix p
  | starP p => exact mem_starRun_suffix p

/-- A lazy star over a fully-matching block `t` enumerates, shortest
first, the remainders obtained by consuming `0, 1, …, t.length - 1`
characters of `t`, and then continues into `u`. -/
theorem lazyStarRun_append (p : Char → Bool) (t u : List Char)
    (h : ∀ c ∈ t, p c = true) :
    lazyStarRun p (t ++ u) =
      ((List.range t.length).map fun i => t.drop i ++ u) ++ lazyStarRun p u := by
  induction t with
  | nil => simp
  | cons a t ih =>
    have hpa : p a = true := h a (List.mem_cons_self a t)
    have ht : ∀ c ∈ t, p c = true := fun c hc => h c (List.mem_cons_of_mem a hc)
    rw [List.cons_append]
    simp only [lazyStarRun, hpa, if_true, ih ht, List.length_cons,
      List.range_succ_eq_map, List.map_cons, List.map_map]
    simp [Function.comp]

/-- A greedy star over a fully-matching input puts the fully-consumed
remainder (the empty list) first. -/
theorem starRun_all_head (p : Char → Bool) (l : List Char)
    (h : ∀ c ∈ l, p c = true) : ∃ tl, starRun p l = [] :: tl := by
  induction l with
  | nil => exact ⟨[], rfl⟩
  | cons c r ih =>
    obtain ⟨tl, htl⟩ := ih fun d hd => h d (List.mem_cons_of_mem c hd)
    refine ⟨tl ++ [c :: r], ?_⟩
    simp [starRun, h c (List.mem_cons_self c r), htl]

/-- Dropping fewer than `l.length` elements leaves a nonempty list whose
head is an element of `l`. -/
theorem drop_head_mem (l : List Char) (i : Nat) (h : i < l.length) :
    ∃ c tl, l.drop i = c :: tl ∧ c ∈ l := by
  cases hd : l.drop i with
  | nil =>
    have := congrArg List.length hd
    simp [List.length_drop] at this
    omega
  | cons c tl =>
    exact ⟨c, tl, rfl, List.mem_of_mem_drop (hd ▸ List.mem_cons_self c tl)⟩

/-! ### Lemmas about the address pattern -/

/-- A prefecture suffix character is matched by the wildcard. -/
theorem prefSfx_dot (c : Char) (h : prefSfx c = true) : dotP c = true := by
  simp only [prefSfx, Bool.or_eq_true, beq_iff_eq] at h
  rcases h with ((h | h) | h) | h <;> subst h <;> decide

/-- A digit character is matched by the wildcard. -/
theorem isPyDigit_dot (c : Char) (h : isPyDigit c = true) : dotP c = true := by
  simp only [dotP, bne_iff_ne, ne_eq]
  intro hc
  subst hc
  exact absurd h (by decide)

/-- The street pattern produces nothing when the remainder starts with a
non-digit character. -/
theorem streetGroups_nil (s r1 : List Char) (c : Char) (w : List Char)
    (hc : isPyDigit c = false) : streetGroups s r1 (c :: w) = [] := by
  simp [streetGroups, street_pattern, mmatch, hc]

/-- The street pattern produces nothing from an empty remainder. -/
theorem streetGroups_nil_empty (s r1 : List Char) : streetGroups s r1 [] = [] := by
  simp [streetGroups, street_pattern, mmatch]

/-- At a digit followed by newline-free text, the street pattern's
first (greedy) result consumes everything, so the street group is the
whole remainder. -/
theorem streetGroups_head (s r1 rest : List Char) (d : Char)
    (hd : isPyDigit d = true) (hrest : ∀ c ∈ rest, dotP c = true) :
    ∃ ys, streetGroups s r1 (d :: rest) =
      (s.take (s.length - r1.length), r1.take (r1.length - (d :: rest).length),
       d :: rest) :: ys := by
  obtain ⟨tl, htl⟩ := starRun_all_head dotP rest hrest
  refine ⟨tl.map fun r3 =>
    (s.take (s.length - r1.length), r1.take (r1.length - (d :: rest).length),
     (d :: rest).take ((d :: rest).length - r3.length)), ?_⟩
  simp [streetGroups, street_pattern, mmatch, hd, htl, List.take_length]

/-- Under the named-city hypotheses the first capture triple produced by
the city stage takes the city group up to (excluding) the first digit,
through the named-city alternative. -/
theorem cityGroups_named (s n t rest : List Char) (d : Char)
    (hn : namedCities.filter (fun m => m.isPrefixOf (n ++ '市' :: (t ++ d :: rest))) = [n])
    (ht : t ≠ []) (htdot : ∀ c ∈ t, dotP c = true)
    (htdig : ∀ c ∈ t, isPyDigit c = false)
    (hd : isPyDigit d = true) (hrest : ∀ c ∈ rest, dotP c = true) :
    ∃ ys, cityGroups s (n ++ '市' :: (t ++ d :: rest)) =
      (s.take (s.length - (n ++ '市' :: (t ++ d :: rest)).length),
       n ++ '市' :: t, d :: rest) :: ys := by
  obtain ⟨t0, t', rfl⟩ := List.exists_cons_of_ne_nil ht
  have hlits : mmatch (litsRE namedCities) (n ++ '市' :: ((t0 :: t') ++ d :: rest)) =
      ['市' :: ((t0 :: t') ++ d :: rest)] := by
    rw [mmatch_litsRE, hn]
    simp [List.drop_left]
  have h1 : mmatch (.lit ['市']) ('市' :: ((t0 :: t') ++ d :: rest)) =
      [(t0 :: t') ++ d :: rest] := by
    simp [mmatch, List.isPrefixOf]
  have h0 : dotP t0 = true := htdot t0 (List.mem_cons_self t0 t')
  have ht' : ∀ c ∈ t', dotP c = true := fun c hc => htdot c (List.mem_cons_of_mem t0 hc)
  have hlazy : mmatch lazyPlusDot ((t0 :: t') ++ d :: rest) =
      ((List.range t'.length).map fun i => t'.drop i ++ d :: rest) ++
        lazyStarRun dotP (d :: rest) := by
    simp only [lazyPlusDot, mmatch, List.cons_append, h0, if_true,
      List.flatMap_cons, List.flatMap_nil, List.append_nil]
    exact lazyStarRun_append dotP t' (d :: rest) ht'
  have hnamed : mmatch cityNamed (n ++ '市' :: ((t0 :: t') ++ d :: rest)) =
      ((List.range t'.length).map fun i => t'.drop i ++ d :: rest) ++
        ((d :: rest) :: (if dotP d then lazyStarRun dotP rest else [])) := by
    show mmatch (.seq (litsRE namedCities) (.seq (.lit ['市']) lazyPlusDot)) _ = _
    rw [mmatch_seq, hlits, flatMap_one, mmatch_seq, h1, flatMap_one, hlazy]
    rfl
  have hcity : mmatch city_pattern (n ++ '市' :: ((t0 :: t') ++ d :: rest)) =
      ((List.range t'.length).map fun i => t'.drop i ++ d :: rest) ++
        ((d :: rest) ::
          ((if dotP d then lazyStarRun dotP rest else []) ++
            (mmatch cityGun (n ++ '市' :: ((t0 :: t') ++ d :: rest)) ++
              (mmatch cityShiKu (n ++ '市' :: ((t0 :: t') ++ d :: rest)) ++
                mmatch cityGeneric (n ++ '市' :: ((t0 :: t') ++ d :: rest)))))) := by
    show mmatch (.alt cityNamed (.alt cityGun (.alt cityShiKu cityGeneric))) _ = _
    rw [mmatch_alt, mmatch_alt, mmatch_alt, hnamed]
    simp [List.append_assoc, List.cons_append]
  have hPRE : ∀ x ∈ (List.range t'.length).map fun i => t'.drop i ++ d :: rest,
      streetGroups s (n ++ '市' :: ((t0 :: t') ++ d :: rest)) x = [] := by
    intro x hx
    simp only [List.mem_map, List.mem_range] at hx
    obtain ⟨i, hi, rfl⟩ := hx
    obtain ⟨c, tl, hdrop, hmem⟩ := drop_head_mem t' i hi
    rw [hdrop, List.cons_append]
    exact streetGroups_nil s _ c _ (htdig c (List.mem_cons_of_mem t0 hmem))
  obtain ⟨ys, hys⟩ := streetGroups_head s (n ++ '市' :: ((t0 :: t') ++ d :: rest)) rest d hd hrest
  have htake : (n ++ '市' :: ((t0 :: t') ++ d :: rest)).take
      ((n ++ '市' :: ((t0 :: t') ++ d :: rest)).length - (d :: rest).length) =
      n ++ '市' :: (t0 :: t') := by
    have hsplit : n ++ '市' :: ((t0 :: t') ++ d :: rest) =
        (n ++ '市' :: (t0 :: t')) ++ d :: rest := by simp
    rw [hsplit, List.length_append, Nat.add_sub_cancel, List.take_left]
  refine ⟨ys ++ ((if dotP d then lazyStarRun dotP rest else []) ++
      (mmatch cityGun (n ++ '市' :: ((t0 :: t') ++ d :: rest)) ++
        (mmatch cityShiKu (n ++ '市' :: ((t0 :: t') ++ d :: rest)) ++
          mmatch cityGeneric (n ++ '市' :: ((t0 :: t') ++ d :: rest))))).flatMap
            (streetGroups s (n ++ '市' :: ((t0 :: t') ++ d :: rest))), ?_⟩
  rw [cityGroups, hcity, List.flatMap_append, List.flatMap_cons,
    List.flatMap_eq_nil_iff.mpr hPRE, List.nil_append, hys, htake]
  simp

/-- When the input contains no digit the street sub-pattern has nowhere
to start, so the whole anchored pattern fails. -/
theorem address_match_no_digit (s : List Char)
    (h : ∀ c ∈ s, isPyDigit c = false) : address_match s = none := by
  have hnil : address_matches s = [] := by
    rw [address_matches]
    apply List.flatMap_eq_nil_iff.mpr
    intro r1 h1
    rw [cityGroups]
    apply List.flatMap_eq_nil_iff.mpr
    intro r2 h2
    have hr1 : r1.IsSuffix s := mem_mmatch_suffix _ s r1 h1
    have hr2 : r2.IsSuffix s := (mem_mmatch_suffix _ r1 r2 h2).trans hr1
    cases r2 with
    | nil => exact streetGroups_nil_empty s r1
    | cons c w =>
      exact streetGroups_nil s r1 c w (h c (hr2.subset (List.mem_cons_self c w)))
  simp [address_match, hnil]

/-! ### Claim theorems -/

/-- C1 (counterexample): on the input `"東京都渋谷区神南1-1-1"` the code's
city group is NOT `"渋谷区"`: the generic city alternative ends with a
lazy `.+?` that absorbs the town text `神南` up to the first digit, so the
claimed split at the `区` boundary is false on the code. -/
theorem C1_counterexample :
    (get_address (some ⟨some "東京都渋谷区神南1-1-1", none⟩)).2.1 ≠ "渋谷区" := by
  decide

/-- C1 (amended): for the input `"東京都渋谷区神南1-1-1"` the match yields
prefecture `"東京都"`, city `"渋谷区神南"` (the city group extends past the
`区` boundary up to the first digit), and street `"1-1-1"`. -/
theorem C1_amended_segmentation :
    get_address (some ⟨some "東京都渋谷区神南1-1-1", none⟩)
        = ("東京都", "渋谷区神南", "1-1-1", "") ∧
      address_match "東京都渋谷区神南1-1-1".data
        = some ("東京都".data, "渋谷区神南".data, "1-1-1".data) := by
  constructor
  · decide
  · decide

/-- C6: for an address string of the form prefecture (three characters
ending in a prefecture suffix) + allow-listed named city + `市` +
digit-free town text + street digits, segmentation commits to the
named-city alternative and the returned city field equals the
named-city-aware split: the named city with its `市` suffix and the
following text up to the first digit. -/
theorem C6_named_city_priority
    (p1 p2 sfx d : Char) (n t rest : List Char) (reg : String) (loc : Option String)
    (hreg : reg.data = p1 :: p2 :: sfx :: (n ++ '市' :: (t ++ d :: rest)))
    (hp1 : dotP p1 = true) (hp2 : dotP p2 = true) (hsfx : prefSfx sfx = true)
    (hn : namedCities.filter (fun m => m.isPrefixOf (n ++ '市' :: (t ++ d :: rest))) = [n])
    (ht : t ≠ []) (htdot : ∀ c ∈ t, dotP c = true)
    (htdig : ∀ c ∈ t, isPyDigit c = false)
    (hd : isPyDigit d = true) (hrest : ∀ c ∈ rest, dotP c = true) :
    address_match reg.data = some ([p1, p2, sfx], n ++ '市' :: t, d :: rest) ∧
    get_address (some ⟨some reg, loc⟩) =
      ([p1, p2, sfx].asString, (n ++ '市' :: t).asString, (d :: rest).asString,
       loc.getD "") := by
  have hdsfx : dotP sfx = true := prefSfx_dot sfx hsfx
  have hpref : mmatch prefecture_pattern (p1 :: p2 :: sfx :: (n ++ '市' :: (t ++ d :: rest))) =
      (n ++ '市' :: (t ++ d :: rest)) ::
        mmatch (.pred prefSfx) (n ++ '市' :: (t ++ d :: rest)) := by
    show mmatch (.seq (.pred dotP) (.seq (.pred dotP)
      (.seq (.alt .eps (.pred dotP)) (.pred prefSfx)))) _ = _
    simp [mmatch, hp1, hp2, hdsfx, hsfx]
  obtain ⟨ys, hcg⟩ := cityGroups_named
    (p1 :: p2 :: sfx :: (n ++ '市' :: (t ++ d :: rest))) n t rest d
    hn ht htdot htdig hd hrest
  have htake3 : (p1 :: p2 :: sfx :: (n ++ '市' :: (t ++ d :: rest))).take
      ((p1 :: p2 :: sfx :: (n ++ '市' :: (t ++ d :: rest))).length -
        (n ++ '市' :: (t ++ d :: rest)).length) = [p1, p2, sfx] := by
    have hlen : (p1 :: p2 :: sfx :: (n ++ '市' :: (t ++ d :: rest))).length -
        (n ++ '市' :: (t ++ d :: rest)).length = 3 := by
      simp
      omega
    rw [hlen]
    rfl
  have haddr : address_match (p1 :: p2 :: sfx :: (n ++ '市' :: (t ++ d :: rest))) =
      some ([p1, p2, sfx], n ++ '市' :: t, d :: rest) := by
    rw [address_match, address_matches, hpref]
    simp only [List.flatMap_cons]
    rw [hcg, htake3]
    simp
  refine ⟨hreg ▸ haddr, ?_⟩
  simp [get_address, hreg, haddr]

/-- C6 witness: the address `"北海道旭川市宮下通7-7"` with the named city
`旭川` segments into (`北海道`, `旭川市宮下通`, `7-7`). -/
theorem C6_witness :
    address_match "北海道旭川市宮下通7-7".data
        = some (['北', '海', '道'], ['旭', '川'] ++ '市' :: ['宮', '下', '通'],
            '7' :: ['-', '7']) ∧
      get_address (some ⟨some "北海道旭川市宮下通7-7", none⟩) =
        (['北', '海', '道'].asString, (['旭', '川'] ++ '市' :: ['宮', '下', '通']).asString,
         ('7' :: ['-', '7']).asString, "") := by
  have h := C6_named_city_priority '北' '海' '道' '7' ['旭', '川'] ['宮', '下', '通']
    ['-', '7'] "北海道旭川市宮下通7-7" none (by decide) (by decide) (by decide)
    (by decide) (by decide) (by decide) (by decide) (by decide) (by decide) (by decide)
  simpa using h

/-- C7: an address string containing no digit makes the combined pattern
fail as a whole, so all three regex-derived fields come back empty (the
building name, read from a separate node, is unaffected). -/
theorem C7_no_digit_all_empty (reg : String) (loc : Option String)
    (h : ∀ c ∈ reg.data, isPyDigit c = false) :
    address_match reg.data = none ∧
    get_address (some ⟨some reg, loc⟩) = ("", "", "", loc.getD "") := by
  have hm : address_match reg.data = none := address_match_no_digit reg.data h
  refine ⟨hm, ?_⟩
  simp [get_address, hm]

/-- C7 witness: the digit-free address `"東京都港区赤坂"` yields a failed
match and empty prefecture/city/street fields. -/
theorem C7_witness :
    address_match "東京都港区赤坂".data = none ∧
    get_address (some ⟨some "東京都港区赤坂", some "ビル"⟩) = ("", "", "", "ビル") := by
  have h := C7_no_digit_all_empty "東京都港区赤坂" (some "ビル") (by decide)
  simpa using h

/-- C2 (counterexample): in the static variant a malformed `data-o`
attribute makes the resolver return absent immediately, even though the
`sv-site` fallback would have produced a URL (second conjunct: the same
document with the primary link removed resolves through the fallback). -/
theorem C2_counterexample :
    get_url_1_1
        { infoName := none, infoPhone := none, mailtoHref := none,
          adrSlink := none, urlGoOff := some ⟨some .invalid⟩ }
        ⟨none, some ⟨some (some "https://alt.example.jp")⟩⟩ (fun _ => .error ()) = none ∧
    get_url_1_1
        { infoName := none, infoPhone := none, mailtoHref := none,
          adrSlink := none, urlGoOff := none }
        ⟨none, some ⟨some (some "https://alt.example.jp")⟩⟩ (fun _ => .error ())
      = some "https://alt.example.jp" := by
  constructor
  · rfl
  · rfl

/-- C2 (amended): a malformed or key-missing `data-o` is treated as
absence only in the browser-driven variant, whose resolver proceeds to
the fallback exactly as if the primary link were missing; in the static
variant the same condition makes the resolver give up and return absent
without attempting the fallback. -/
theorem C2_amended_fallback
    (t : InfoTable) (le : LinkElem) (r : RawJson) (drv soup : Soup) (env : HttpEnv)
    (hle : t.urlGoOff = some le) (hr : le.dataO = some r)
    (htr : truthyRaw r = true) (hfail : dataOFails r = true) :
    get_url_1_2 t drv = get_url_1_2 { t with urlGoOff := none } drv ∧
    get_url_1_1 t soup env = none := by
  constructor
  · cases hjl : json_loads r with
    | error e => simp [get_url_1_2, hle, hr, htr, hjl]
    | ok kv =>
      have hkeys : (kv.lookup "b").isNone || (kv.lookup "a").isNone := by
        simpa [dataOFails, hjl] using hfail
      cases hb : kv.lookup "b" with
      | none => simp [get_url_1_2, hle, hr, htr, hjl, hb]
      | some b =>
        cases ha : kv.lookup "a" with
        | none => simp [get_url_1_2, hle, hr, htr, hjl, hb, ha]
        | some a => simp [hb, ha] at hkeys
  · cases hjl : json_loads r with
    | error e => simp [get_url_1_1, hle, hr, htr, hjl]
    | ok kv =>
      have hkeys : (kv.lookup "b").isNone || (kv.lookup "a").isNone := by
        simpa [dataOFails, hjl] using hfail
      cases hb : kv.lookup "b" with
      | none => simp [get_url_1_1, hle, hr, htr, hjl, hb]
      | some b =>
        cases ha : kv.lookup "a" with
        | none => simp [get_url_1_1, hle, hr, htr, hjl, hb, ha]
        | some a => simp [hb, ha] at hkeys

/-- C2 witness: a document whose primary link holds unparsable JSON and
whose `sv-site` fallback holds a URL. -/
theorem C2_witness :
    get_url_1_2
        { infoName := none, infoPhone := none, mailtoHref := none,
          adrSlink := none, urlGoOff := some ⟨some .invalid⟩ }
        ⟨none, some ⟨some (some "https://alt.example.jp")⟩⟩
      = get_url_1_2
          { infoName := none, infoPhone := none, mailtoHref := none,
            adrSlink := none,
            urlGoOff := (none : Option LinkElem) }
          ⟨none, some ⟨some (some "https://alt.example.jp")⟩⟩ ∧
    get_url_1_1
        { infoName := none, infoPhone := none, mailtoHref := none,
          adrSlink := none, urlGoOff := some ⟨some .invalid⟩ }
        ⟨none, none⟩ (fun _ => .error ()) = none := by
  have h := C2_amended_fallback
    { infoName := none, infoPhone := none, mailtoHref := none,
      adrSlink := none, urlGoOff := some ⟨some .invalid⟩ }
    ⟨some .invalid⟩ .invalid
    ⟨none, some ⟨some (some "https://alt.example.jp")⟩⟩ ⟨none, none⟩
    (fun _ => .error ()) rfl rfl (by decide) (by decide)
  exact h

/-- C3: when the resolver came back with Python `None` or the empty
string, no TLS probe is performed in either variant (the result does not
depend on the network environment); but the static variant's
`check_ssl_status` falls off the end and produces Python `None` — not the
boolean `False` its own docstring and the claim promise — while the
browser variant returns `False`.  The last conjunct shows the full
static-variant record at such a page: its `SSL` value is `none`. -/
theorem C3_absent_url_no_probe :
    (∀ env : TlsEnv, check_ssl_status_1_1 none env = .ok none) ∧
    (∀ env : TlsEnv, check_ssl_status_1_1 (some "") env = .ok none) ∧
    (∀ env : TlsEnv, check_ssl_status_1_2 none env = .ok false) ∧
    (∀ env : TlsEnv, check_ssl_status_1_2 (some "") env = .ok false) ∧
    (∀ (httpEnv : HttpEnv) (tlsEnv : TlsEnv),
      get_rs_data (.ok (200, ⟨some ⟨none, none, none, none, none⟩, none⟩))
          httpEnv tlsEnv
        = .ok { defaultRecord with url := none, ssl := none }) := by
  exact ⟨fun _ => rfl, fun _ => rfl, fun _ => rfl, fun _ => rfl, fun _ _ => rfl⟩

/-- C4: the claim holds only for the static variant: on a detail page
lacking the `table.basic-table` root, `1-1.py` returns the
fully-defaulted record without raising and without further extraction,
but `1-2.py` raises `TimeoutException` out of `WebDriverWait(...).until`
before its (unreachable) defaulted-return branch, contradicting the
claim, the variant's own Notes, and its inline comment. -/
theorem C4_missing_table_divergence (soup page : Soup) (httpEnv : HttpEnv)
    (tlsEnv tlsEnv2 : TlsEnv)
    (h1 : soup.basicTable = none) (h2 : page.basicTable = none) :
    get_rs_data (.ok (200, soup)) httpEnv tlsEnv = .ok defaultRecord ∧
    get_rs_data_1_2 page tlsEnv2 = .error .timeoutException := by
  constructor
  · simp [get_rs_data, h1]
  · simp [get_rs_data_1_2, h2]

/-- C4 witness: the empty document, through both variants. -/
theorem C4_witness :
    get_rs_data (.ok (200, ⟨none, none⟩)) (fun _ => .error ())
        (fun _ => .connTimeout) = .ok defaultRecord ∧
    get_rs_data_1_2 ⟨none, none⟩ (fun _ => .connTimeout) = .error .timeoutException :=
  C4_missing_table_divergence ⟨none, none⟩ ⟨none, none⟩ (fun _ => .error ())
    (fun _ => .connTimeout) (fun _ => .connTimeout) rfl rfl

/-- C5: the phone extraction is not total: when the `tr#info-phone` row
exists but its `span.number` child is absent, the static variant calls
`.get_text` on `None` and raises `AttributeError` (first conjunct),
contradicting its own docstring; only the outer-absence case returns the
empty string (second conjunct). -/
theorem C5_phone_inner_missing_raises :
    get_rs_data_member ⟨none, some ⟨none⟩, none, none, none⟩ "phone"
        = .error (.attributeError "NoneType object has no attribute get_text") ∧
    get_rs_data_member ⟨none, none, none, none, none⟩ "phone" = .ok "" := by
  constructor
  · rfl
  · rfl

/-- C8: the `data_type` dispatch is a closed enumeration: any category
outside {name, phone, email} raises `ValueError`, and the three known
categories never raise `ValueError` (the phone category can raise
`AttributeError`, which is a different error). -/
theorem C8_data_type_closed_enum (t : InfoTable) (dt : String) :
    (dt ∉ (["name", "phone", "email"] : List String) →
      get_rs_data_member t dt = .error (.valueError ("Invalid data_type: " ++ dt))) ∧
    (dt ∈ (["name", "phone", "email"] : List String) →
      ∀ msg, get_rs_data_member t dt ≠ .error (.valueError msg)) := by
  constructor
  · intro h
    simp only [List.mem_cons, List.mem_singleton, not_or] at h
    obtain ⟨h1, h2, h3⟩ := h
    simp [get_rs_data_member, h1, h2, h3]
  · intro h msg
    simp only [List.mem_cons, List.not_mem_nil, or_false] at h
    rcases h with rfl | rfl | rfl
    · have he : get_rs_data_member t "name" =
          match t.infoName with
          | some txt => .ok txt
          | none => .ok "" := rfl
      rw [he]
      cases t.infoName <;> simp
    · have he : get_rs_data_member t "phone" =
          match t.infoPhone with
          | some pe =>
            match pe.numberSpan with
            | some txt => .ok txt
            | none => .error (.attributeError "NoneType object has no attribute get_text")
          | none => .ok "" := rfl
      rw [he]
      cases hp : t.infoPhone with
      | none => simp
      | some pe => cases hs : pe.numberSpan <;> simp [hs]
    · have he : get_rs_data_member t "email" =
          match t.mailtoHref with
          | some href => .ok (href.replace "mailto:" "")
          | none => .ok "" := rfl
      rw [he]
      cases t.mailtoHref <;> simp

/-- C8 witness: the unknown category `"category"` raises `ValueError`
while `"name"` does not. -/
theorem C8_witness :
    get_rs_data_member ⟨none, none, none, none, none⟩ "category"
        = .error (.valueError ("Invalid data_type: " ++ "category")) ∧
    get_rs_data_member ⟨none, none, none, none, none⟩ "name"
        ≠ .error (.valueError "boom") := by
  have h := C8_data_type_closed_enum ⟨none, none, none, none, none⟩ "category"
  have h2 := C8_data_type_closed_enum ⟨none, none, none, none, none⟩ "name"
  exact ⟨h.1 (by decide), h2.2 (by decide) "boom"⟩

/-- C9: a URL from which no network authority can be parsed yields
`(False, "Invalid URL")` for every network environment, i.e. without any
connection being attempted. -/
theorem C9_invalid_url (url : String) (env : TlsEnv) (h : netloc url = "") :
    check_ssl_certificate url env = some (false, "Invalid URL") := by
  simp only [check_ssl_certificate, h]
  rfl

/-- C9 witness: `"not a url"` has no parseable authority. -/
theorem C9_witness :
    check_ssl_certificate "not a url" (fun _ => .handshakeOk true)
      = some (false, "Invalid URL") :=
  C9_invalid_url "not a url" (fun _ => .handshakeOk true) (by decide)

/-- C10: for a URL with a parseable authority the probe returns no pair
exactly when the TCP connection and TLS handshake succeed but the
retrieved peer certificate is empty (the function falls off the end); in
every other outcome it returns a (bool, message) pair. -/
theorem C10_empty_cert_none (url : String) (env : TlsEnv)
    (h : netloc url ≠ "") :
    (check_ssl_certificate url env = none ↔
      env (netloc url) = .handshakeOk false) ∧
    (env (netloc url) ≠ .handshakeOk false →
      (check_ssl_certificate url env).isSome = true) := by
  have h' : (netloc url).isEmpty = false := by
    cases he : (netloc url).isEmpty
    · rfl
    · exact absurd ((String.isEmpty_iff (netloc url)).mp he) h
  cases henv : env (netloc url) with
  | sslError e => simp [check_ssl_certificate, h', henv]
  | connTimeout => simp [check_ssl_certificate, h', henv]
  | otherError e => simp [check_ssl_certificate, h', henv]
  | handshakeOk b => cases b <;> simp [check_ssl_certificate, h', henv]

/-- C10 witness: an empty peer certificate at `example.com` makes the
probe return `None`. -/
theorem C10_witness :
    check_ssl_certificate "https://example.com" (fun _ => .handshakeOk false) = none := by
  have h := C10_empty_cert_none "https://example.com"
    (fun _ => .handshakeOk false) (by decide)
  exact h.1.mpr rfl

end Gnavi
